import Mathlib

/-!
Verification development for the claim-verification pipeline of the repository:
the deterministic detector agent (server/src/agents/detector_agent.py), the
verdict synthesizer (server/src/agents/verifier_agent.py) and the workflow
state machine (server/src/graph/state.py, server/src/graph/workflow.py).

Modelling conventions:
- Python strings are modelled as Lean strings; the scanners work on the
  underlying character lists so that every definition is executable by the
  kernel (structural recursion or explicit fuel, never well-founded loops).
- Python floats are modelled as exact rationals; all constants appearing in
  the source are exactly representable at the precision the code compares.
- The regular expressions of the source are compiled by hand into
  character-level matchers; where the hand compilation drops a backtracking
  branch, a comment argues why that branch can never succeed.
- Calls to external collaborators (similarity search, RSS, the reasoning
  service) are modelled by an environment record, so every theorem about the
  workflow quantifies over all collaborator behaviours.
-/

set_option maxRecDepth 10000

/- Batteries marks the arithmetic of Rat irreducible, which makes the decide
tactic refuse to evaluate concrete rational values during elaboration; the
kernel itself is unaffected. Reducibility is restored here so that concrete
evaluations go through. -/
set_option allowUnsafeReducibility true

attribute [semireducible] Rat.mul Rat.add Rat.sub Rat.neg Rat.inv Rat.div

/-! ### Character classes (ASCII views of the regex classes used in the source) -/

def isWsChar (c : Char) : Bool :=
  c = ' ' || c = '\t' || c = '\n' || c = '\r' || c = '\x0b' || c = '\x0c'

def isDigitCh (c : Char) : Bool := '0' ≤ c && c ≤ '9'

def isUpperCh (c : Char) : Bool := 'A' ≤ c && c ≤ 'Z'

def isLowerCh (c : Char) : Bool := 'a' ≤ c && c ≤ 'z'

def isWordCh (c : Char) : Bool := isUpperCh c || isLowerCh c || isDigitCh c || c = '_'

def toLowerCh (c : Char) : Char := if isUpperCh c then Char.ofNat (c.toNat + 32) else c

def lowerL (s : List Char) : List Char := s.map toLowerCh

/-- Python str.strip(): drop leading and trailing whitespace. -/
def pyStrip (s : List Char) : List Char :=
  ((s.dropWhile isWsChar).reverse.dropWhile isWsChar).reverse

def beginsWith : List Char → List Char → Bool
  | [], _ => true
  | _ :: _, [] => false
  | p :: ps, c :: cs => p = c && beginsWith ps cs

def beginsWithCI (p s : List Char) : Bool := beginsWith (lowerL p) (lowerL s)

/-- Python substring containment (the `in` operator on strings). -/
def containsSub (p : List Char) : List Char → Bool
  | [] => beginsWith p []
  | c :: cs => beginsWith p (c :: cs) || containsSub p cs

def strContains (s sub : String) : Bool := containsSub sub.data s.data

/-- Number of whitespace-separated words, i.e. the length of Python str.split(). -/
def wordCountAux : Bool → List Char → Nat
  | _, [] => 0
  | inWord, c :: cs =>
    if isWsChar c then wordCountAux false cs
    else (if inWord then 0 else 1) + wordCountAux true cs

def wordCount (s : List Char) : Nat := wordCountAux false s

/-- Maximal runs of characters satisfying `keep` (the tokens of a re.split on
the complementary class, with the empty boundary tokens already removed). -/
def tokensAux (keep : Char → Bool) : List Char → List Char → List (List Char)
  | cur, [] => if cur.isEmpty then [] else [cur.reverse]
  | cur, c :: cs =>
    if keep c then tokensAux keep (c :: cur) cs
    else if cur.isEmpty then tokensAux keep [] cs
    else cur.reverse :: tokensAux keep [] cs

def tokensOf (keep : Char → Bool) (s : List Char) : List (List Char) := tokensAux keep [] s

/-- A word boundary holds after a match ending in a word character iff the
next character is absent or not a word character. -/
def boundaryAfter : List Char → Bool
  | [] => true
  | c :: _ => !isWordCh c

def mapIdxAux {α β : Type} (f : Nat → α → β) : Nat → List α → List β
  | _, [] => []
  | i, x :: xs => f i x :: mapIdxAux f (i + 1) xs

def joinSep (sep : String) : List String → String
  | [] => ""
  | [x] => x
  | x :: y :: xs => x ++ sep ++ joinSep sep (y :: xs)

/-! ### Generic regex scanners

All the source patterns searched with these scanners open with a word
boundary followed by a word character, so a match can only start at a
position whose previous character is absent or not a word character; the
scanners track that Boolean. Matchers receive the suffix at the candidate
position and return the matched text together with the rest of the input. -/

/-- First match of a boundary-anchored pattern (re.search). Fuel is the
length of the input plus one; every step consumes at least one character. -/
def scanFirstAux (m : List Char → Option (List Char × List Char)) :
    Nat → Bool → List Char → Option (List Char)
  | 0, _, _ => none
  | _ + 1, _, [] => none
  | n + 1, bnd, c :: cs =>
    match (if bnd then m (c :: cs) else none) with
    | some (mt, _) => some mt
    | none => scanFirstAux m n (!isWordCh c) cs

/-- All non-overlapping matches of a boundary-anchored pattern (re.finditer). -/
def scanAllAux (m : List Char → Option (List Char × List Char)) :
    Nat → Bool → List Char → List (List Char)
  | 0, _, _ => []
  | _ + 1, _, [] => []
  | n + 1, bnd, c :: cs =>
    match (if bnd then m (c :: cs) else none) with
    | some (mt, rest) =>
      mt :: scanAllAux m n (match mt.getLast? with | some l => !isWordCh l | none => bnd) rest
    | none => scanAllAux m n (!isWordCh c) cs

/-- First match of a pattern with no boundary requirement at its start. -/
def scanAnyFirst {α : Type} (m : List Char → Option α) : List Char → Option α
  | [] => none
  | c :: cs =>
    match m (c :: cs) with
    | some x => some x
    | none => scanAnyFirst m cs

/-- Literal word alternative followed by a word boundary. -/
def literalWordAt (w : List Char) (s : List Char) : Option (List Char × List Char) :=
  if beginsWith w s then
    let rest := s.drop w.length
    if boundaryAfter rest then some (w, rest) else none
  else none

/-- Ordered alternation of literal words, each closed by a word boundary. -/
def firstAltAt : List String → List Char → Option (List Char × List Char)
  | [], _ => none
  | w :: ws, s =>
    match literalWordAt w.data s with
    | some r => some r
    | none => firstAltAt ws s

/-! ### The entity pattern

ENTITY_PATTERN in detector_agent.py matches a run of capitalized words
separated by single whitespace characters, enclosed in word boundaries.
The first word is mandatory; the trailing boundary can only fail when the
character following the greedy parse is a word character, in which case the
regex engine drops the last optional group (after which the next character
is the whitespace that opened the dropped group, so the boundary holds);
if there is no optional group to drop, shrinking the mandatory lowercase
run always leaves a lowercase letter as the next character, so the match
fails at this position. -/

/-- One capitalized word at the head of the input. -/
def capWordAt : List Char → Option (List Char × List Char)
  | [] => none
  | c :: cs =>
    if isUpperCh c then
      match cs.takeWhile isLowerCh with
      | [] => none
      | ls => some (c :: ls, cs.dropWhile isLowerCh)
    else none

/-- Greedy parse of the optional groups: a single whitespace character
followed by a capitalized word, repeated. Fuel is the input length. -/
def capGroups : Nat → List Char → List (Char × List Char) × List Char
  | 0, s => ([], s)
  | n + 1, s =>
    match s with
    | [] => ([], s)
    | w :: rest =>
      if isWsChar w then
        match capWordAt rest with
        | some (word, rest2) =>
          let p := capGroups n rest2
          ((w, word) :: p.1, p.2)
        | none => ([], s)
      else ([], s)

def flattenGroups (gs : List (Char × List Char)) : List Char :=
  gs.foldr (fun g acc => g.1 :: g.2 ++ acc) []

def entityMatchAt (s : List Char) : Option (List Char × List Char) :=
  match capWordAt s with
  | none => none
  | some (w0, rest0) =>
    let p := capGroups rest0.length rest0
    if boundaryAfter p.2 then some (w0 ++ flattenGroups p.1, p.2)
    else
      match p.1.reverse with
      | [] => none
      | g :: revRest => some (w0 ++ flattenGroups revRest.reverse, (g.1 :: g.2) ++ p.2)

/-- Index of the first occurrence of `p` in the input (Python str.index);
the pattern always occurs for the inputs this is used on. -/
def subIndexAux (p : List Char) : Nat → List Char → Nat
  | i, [] => i
  | i, c :: cs => if beginsWith p (c :: cs) then i else subIndexAux p (i + 1) cs

/-- Stable insertion placing the new pair after existing pairs with the same
key, so the overall sort below is stable, like the sort in the source. -/
def insertByKey (x : Nat × List Char) : List (Nat × List Char) → List (Nat × List Char)
  | [] => [x]
  | y :: ys => if x.1 < y.1 then x :: y :: ys else y :: insertByKey x ys

def sortByKey (l : List (Nat × List Char)) : List (Nat × List Char) :=
  l.foldl (fun acc x => insertByKey x acc) []

def dedupKeepFirstAux : List (List Char) → List (List Char) → List (List Char)
  | _, [] => []
  | seen, x :: xs =>
    if seen.contains x then dedupKeepFirstAux seen xs
    else x :: dedupKeepFirstAux (x :: seen) xs

/-- DetectorAgent._extract_entities: all ENTITY_PATTERN matches, collected as
a set, ordered by the first occurrence of each match string in the claim and
capped at 5. Python iterates the set in an unspecified order before the
stable sort by index; the model uses first-occurrence order, which only
matters for index ties. -/
def extract_entities_l (claim : List Char) : List (List Char) :=
  let ms := (scanAllAux entityMatchAt (claim.length + 1) true claim).map pyStrip
  let uniq := dedupKeepFirstAux [] ms
  let sorted := sortByKey (uniq.map (fun m => (subIndexAux m 0 claim, m)))
  (sorted.take 5).map (·.2)

def extract_entities (claim : List Char) : List String :=
  (extract_entities_l claim).map String.mk

/-! ### Keyword extraction -/

def STOPWORDS : List String :=
  ["the", "and", "that", "this", "with", "from", "have", "been", "will",
   "about", "over", "into", "after", "before", "today", "news", "claims",
   "claim", "says", "said", "according", "reports", "reported", "source"]

def isKwTokCh (c : Char) : Bool := isWordCh c || c = '@' || c = '#'

/-- DetectorAgent._extract_keywords: tokens of the lower-cased claim split on
runs outside the word/@/# class, kept when longer than 3 characters and not
stopwords, capped at 8. -/
def extract_keywords (claimLower : List Char) : List String :=
  (((tokensOf isKwTokCh claimLower).filter
      (fun t => 3 < t.length && !(STOPWORDS.contains (String.mk t)))).map String.mk).take 8

/-! ### Action extraction -/

def ACTION_PATTERNS : List String :=
  ["flight cancelled", "flight canceled", "airport closed", "airport shutdown",
   "school closed", "lockdown", "virus outbreak", "cases rising",
   "explosive spread", "power outage", "internet shutdown", "bank closed",
   "market crash", "train derailed", "bridge collapsed"]

def ACTION_WORDS : List String :=
  ["cancelled", "canceled", "closed", "delay", "postponed", "confirmed",
   "declared", "announced", "reported", "confirmed", "denied", "verified"]

/-- The single-word action regex: the alternative shut\s+down first, then the
literal words of ACTION_WORDS, each closed by a word boundary. -/
def actionWordMatchAt (s : List Char) : Option (List Char × List Char) :=
  match
    (if beginsWith "shut".data s then
      let r1 := s.drop 4
      let ws := r1.takeWhile isWsChar
      let r2 := r1.dropWhile isWsChar
      if !ws.isEmpty && beginsWith "down".data r2 then
        let rest := r2.drop 4
        if boundaryAfter rest then some ("shut".data ++ ws ++ "down".data, rest) else none
      else none
    else none) with
  | some r => some r
  | none => firstAltAt ACTION_WORDS s

/-- DetectorAgent._extract_action: first fixed phrase contained in the claim,
else the first single-word action regex match. -/
def extract_action (claimLower : List Char) : Option String :=
  match ACTION_PATTERNS.find? (fun p => containsSub p.data claimLower) with
  | some p => some p
  | none => (scanFirstAux actionWordMatchAt (claimLower.length + 1) true claimLower).map String.mk

/-! ### Location extraction -/

def LOC_PREPS : List String := ["in", "at", "near", "from", "to"]

def LOC_SUFFIX_WORDS : List String := ["airport", "hospital", "station", "city"]

/-- First location pattern: a preposition, whitespace, then a greedy
capitalized-word run which is the returned group (no closing boundary). -/
def loc1Preps : List String → List Char → Option (List Char × List Char)
  | [], _ => none
  | p :: ps, s =>
    match
      (if beginsWith p.data s then
        let r1 := s.drop p.data.length
        let ws := r1.takeWhile isWsChar
        let r2 := r1.dropWhile isWsChar
        if ws.isEmpty then none
        else
          match capWordAt r2 with
          | some (w0, rest0) =>
            let g := capGroups rest0.length rest0
            some (w0 ++ flattenGroups g.1, g.2)
          | none => none
      else none) with
    | some r => some r
    | none => loc1Preps ps s

def loc1MatchAt (s : List Char) : Option (List Char × List Char) := loc1Preps LOC_PREPS s

/-- Whether the rest of the input continues with whitespace, one of the
location suffix words and a word boundary. -/
def loc2Check (rest : List Char) : Bool :=
  let ws := rest.takeWhile isWsChar
  let r2 := rest.dropWhile isWsChar
  !ws.isEmpty && (firstAltAt LOC_SUFFIX_WORDS r2).isSome

/-- Backtracking over the greedy optional groups of the second location
pattern, dropping trailing groups until the suffix-word part matches. The
argument list holds the groups in reverse order. Shrinking the mandatory
lowercase run can never help because the pattern continues with whitespace. -/
def loc2RevAux (w0 : List Char) : List (Char × List Char) → List Char → Option (List Char)
  | [], rest => if loc2Check rest then some w0 else none
  | g :: gsRev, rest =>
    if loc2Check rest then some (w0 ++ flattenGroups ((g :: gsRev).reverse))
    else loc2RevAux w0 gsRev ((g.1 :: g.2) ++ rest)

def loc2MatchAt (s : List Char) : Option (List Char × List Char) :=
  match capWordAt s with
  | none => none
  | some (w0, rest0) =>
    let p := capGroups rest0.length rest0
    match loc2RevAux w0 p.1.reverse p.2 with
    | some g => some (g, p.2)
    | none => none

/-- DetectorAgent._extract_location: the two regex searches on the original
claim, else the second entity when present. -/
def extract_location (claim : List Char) (entities : List String) : Option String :=
  match scanFirstAux loc1MatchAt (claim.length + 1) true claim with
  | some g => some (String.mk (pyStrip g))
  | none =>
    match scanFirstAux loc2MatchAt (claim.length + 1) true claim with
    | some g => some (String.mk (pyStrip g))
    | none => entities.get? 1

/-! ### Time extraction -/

/-- The clock-time regex: one or two digits, an optional single whitespace,
am or pm, and a closing boundary. Three or more digits can never match at
this position because the character after a shorter digit prefix is a digit. -/
def timeMatchAt (s : List Char) : Option (List Char × List Char) :=
  let ds := s.takeWhile isDigitCh
  if ds.isEmpty || 2 < ds.length then none
  else
    let rest := s.drop ds.length
    match rest with
    | [] => none
    | c :: r2 =>
      if isWsChar c then
        match firstAltAt ["am", "pm"] r2 with
        | some (w, r3) => some (ds ++ c :: w, r3)
        | none => none
      else
        match firstAltAt ["am", "pm"] rest with
        | some (w, r3) => some (ds ++ w, r3)
        | none => none

def TIME_TOKENS : List String :=
  ["morning", "evening", "tonight", "today", "tomorrow", "yesterday"]

/-- DetectorAgent._extract_time_phrase. -/
def extract_time_phrase (claimLower : List Char) : Option String :=
  match scanFirstAux timeMatchAt (claimLower.length + 1) true claimLower with
  | some t => some (String.mk t)
  | none => TIME_TOKENS.find? (fun tok => containsSub tok.data claimLower)

/-! ### Quantitative patterns

Each of the seven QUANTITATIVE_PATTERNS opens with a word boundary and a
digit. The greedy digit runs never need backtracking: a shorter digit run
leaves a digit as the next character, which none of the continuations can
consume, and the optional fraction is taken exactly when a dot followed by
a digit is present (otherwise the continuation fails either way). -/

def parseFracOpt (s : List Char) : List Char × List Char :=
  match s with
  | '.' :: r =>
    match r.takeWhile isDigitCh with
    | [] => ([], s)
    | ds => ('.' :: ds, r.drop ds.length)
  | _ => ([], s)

/-- Percentages followed by one whitespace character (the trailing \s of the
first pattern is part of the match and stripped afterwards). -/
def quant1At (s : List Char) : Option (List Char × List Char) :=
  match s.takeWhile isDigitCh with
  | [] => none
  | ds =>
    let r1 := s.drop ds.length
    let fr := parseFracOpt r1
    match fr.2 with
    | '%' :: c :: r3 =>
      if isWsChar c then some (ds ++ fr.1 ++ ['%', c], r3) else none
    | _ => none

/-- The comma groups of the large-number pattern: a comma followed by exactly
three digits, repeated greedily. Dropping trailing groups can never rescue a
failed continuation because the unit words start with a letter while a
dropped group starts with a comma. -/
def parseCommaGroups : Nat → List Char → List Char × List Char
  | 0, s => ([], s)
  | n + 1, s =>
    match s with
    | ',' :: r =>
      let d3 := r.take 3
      if d3.length = 3 && d3.all isDigitCh then
        let p := parseCommaGroups n (r.drop 3)
        (',' :: d3 ++ p.1, p.2)
      else ([], s)
    | _ => ([], s)

def UNIT_WORDS_LARGE : List String := ["billion", "million", "thousand", "crore", "lakh"]

/-- Large numbers: one to three digits (a longer digit run leaves a digit
after every shorter prefix, so the position fails), comma groups, optional
fraction, optional whitespace and a unit word closed by a boundary. -/
def quant2At (s : List Char) : Option (List Char × List Char) :=
  match s.takeWhile isDigitCh with
  | [] => none
  | ds =>
    if 3 < ds.length then none
    else
      let r1 := s.drop ds.length
      let cg := parseCommaGroups r1.length r1
      let fr := parseFracOpt cg.2
      let ws := fr.2.takeWhile isWsChar
      let r4 := fr.2.dropWhile isWsChar
      match firstAltAt UNIT_WORDS_LARGE r4 with
      | some (w, r5) => some (ds ++ cg.1 ++ fr.1 ++ ws ++ w, r5)
      | none => none

/-- A literal stem with an optional final character (the s? and e? endings of
the count patterns), closed by a word boundary; alternatives in order. -/
def stemAltAt : List (String × Char) → List Char → Option (List Char × List Char)
  | [], _ => none
  | (stem, opt) :: alts, s =>
    match
      (if beginsWith stem.data s then
        let r1 := s.drop stem.data.length
        match r1 with
        | [] => some (stem.data, ([] : List Char))
        | c :: r2 =>
          if c = opt && boundaryAfter r2 then some (stem.data ++ [c], r2)
          else if boundaryAfter r1 then some (stem.data, r1)
          else none
      else none) with
    | some r => some r
    | none => stemAltAt alts s

/-- Digits, optional whitespace and a counted-noun alternative: the shape of
the cases/people/transport/currency patterns. -/
def countedAt (units : List (String × Char)) (s : List Char) : Option (List Char × List Char) :=
  match s.takeWhile isDigitCh with
  | [] => none
  | ds =>
    let r1 := s.drop ds.length
    let ws := r1.takeWhile isWsChar
    let r2 := r1.dropWhile isWsChar
    match stemAltAt units r2 with
    | some (w, r3) => some (ds ++ ws ++ w, r3)
    | none => none

/-- Temperatures: digits, optional fraction, optional whitespace, then
degrees?, °C or °F, closed by a boundary. -/
def quant7At (s : List Char) : Option (List Char × List Char) :=
  match s.takeWhile isDigitCh with
  | [] => none
  | ds =>
    let r1 := s.drop ds.length
    let fr := parseFracOpt r1
    let ws := fr.2.takeWhile isWsChar
    let r3 := fr.2.dropWhile isWsChar
    match stemAltAt [("degree", 's')] r3 with
    | some (w, r4) => some (ds ++ fr.1 ++ ws ++ w, r4)
    | none =>
      if beginsWith ['°', 'C'] r3 && boundaryAfter (r3.drop 2) then
        some (ds ++ fr.1 ++ ws ++ ['°', 'C'], r3.drop 2)
      else if beginsWith ['°', 'F'] r3 && boundaryAfter (r3.drop 2) then
        some (ds ++ fr.1 ++ ws ++ ['°', 'F'], r3.drop 2)
      else none

def quantMatchers : List (List Char → Option (List Char × List Char)) :=
  [quant1At,
   quant2At,
   countedAt [("case", 's'), ("death", 's'), ("patient", 's'), ("test", 's'), ("infection", 's')],
   countedAt [("peopl", 'e'), ("person", 's'), ("individual", 's'), ("victim", 's')],
   countedAt [("flight", 's'), ("train", 's'), ("vehicle", 's'), ("ship", 's')],
   countedAt [("rupee", 's'), ("dollar", 's'), ("euro", 's')],
   quant7At]

/-- DetectorAgent._extract_quantitative_elements: all matches of every
pattern in pattern order, stripped, capped at 5. -/
def extract_quantitative (claim : List Char) : List String :=
  (((quantMatchers.map (fun m => scanAllAux m (claim.length + 1) true claim)).flatten).map
      (fun t => String.mk (pyStrip t))).take 5

/-! ### Classification tables and scoring -/

def DOMAIN_KEYWORDS : List (String × List String) :=
  [("health", ["virus", "covid", "pandemic", "vaccine", "mask", "outbreak", "hospital",
               "fever", "infection", "symptom", "treatment", "patient", "doctor"]),
   ("politics", ["election", "minister", "president", "policy", "parliament", "government",
                 "vote", "campaign", "bill", "law", "diplomat", "ambassador"]),
   ("travel", ["airport", "flight", "train", "railway", "visa", "border", "airline",
               "runway", "luggage", "passport", "tourism", "cruise"]),
   ("disaster", ["flood", "cyclone", "earthquake", "tsunami", "landslide", "storm",
                 "wildfire", "evacuation", "relief", "rescue", "damage"]),
   ("finance", ["stock", "market", "crore", "billion", "rupee", "dollar", "inflation",
                "interest", "budget", "bank", "investment", "economy"]),
   ("technology", ["ai", "cyber", "hack", "malware", "data leak", "server", "chip",
                   "software", "app", "internet", "network", "gadget"]),
   ("general", [])]

def EMERGENCY_WORDS : List String :=
  ["breaking", "urgent", "alert", "warning", "emergency", "crisis", "panic",
   "chaos", "collapse", "failure", "disaster"]

/-- DetectorAgent._detect_domain: the first table entry (in declaration
order) with any keyword occurring as a substring, else general. -/
def detect_domain (claimLower : List Char) : String :=
  match DOMAIN_KEYWORDS.find? (fun d => d.2.any (fun w => containsSub w.data claimLower)) with
  | some d => d.1
  | none => "general"

def INTERROGATIVES : List String := ["did", "is", "are", "can", "does", "has"]

/-- DetectorAgent._classify_claim. -/
def classify_claim (claimLower : List Char) : String :=
  if containsSub ['?'] claimLower
      || INTERROGATIVES.any (fun p => beginsWith p.data claimLower) then "question"
  else if claimLower.any isDigitCh then "numerical_claim"
  else if ACTION_PATTERNS.any (fun p => containsSub p.data claimLower) then "action_claim"
  else "narrative_claim"

/-- Truthiness of an optional Python string: None and the empty string are
falsy. -/
def isTruthyStr : Option String → Bool
  | none => false
  | some s => !(s = "")

def optVal (o : Option String) : String := o.getD ""

structure StructuredClaim where
  subject : Option String
  action : Option String
  location : Option String
  time : Option String
  entities : List String
deriving DecidableEq, Repr

/-- DetectorAgent._build_structured_claim. -/
def build_structured_claim (claim : List Char) (entities : List String) : StructuredClaim :=
  let claimLower := lowerL claim
  { subject := entities.head?
    action := extract_action claimLower
    location := extract_location claim entities
    time := extract_time_phrase claimLower
    entities := entities }

/-- A run of at least three consecutive digits somewhere in the input. -/
def hasThreeDigitRunAux : Nat → List Char → Bool
  | _, [] => false
  | k, c :: cs =>
    if isDigitCh c then (3 ≤ k + 1) || hasThreeDigitRunAux (k + 1) cs
    else hasThreeDigitRunAux 0 cs

def hasThreeDigitRun (s : List Char) : Bool := hasThreeDigitRunAux 0 s

/-- DetectorAgent._score_risk. -/
def score_risk (claim : List Char) (claimType : String) : ℚ :=
  let claimLower := lowerL claim
  let r1 : ℚ := 3/10 +
    (if claimType = "question" then 1/10
     else if claimType = "numerical_claim" then 1/5
     else if claimType = "action_claim" then 3/20
     else 0)
  let r2 := r1 + (if EMERGENCY_WORDS.any (fun w => containsSub w.data claimLower) then 1/4 else 0)
  let r3 := r2 + (if hasThreeDigitRun claim then 3/20 else 0)
  let r4 := r3 - (if 240 < claim.length then 1/20 else 0)
  let r5 := r4 + (if !(extract_quantitative claim).isEmpty then 1/10 else 0)
  max (1/10) (min 1 r5)

/-- DetectorAgent._score_confidence. -/
def score_confidence (claimType : String) (risk : ℚ) (entityCount : Nat) : ℚ :=
  let base : ℚ := if !(claimType = "narrative_claim") then 11/20 else 2/5
  let b1 := base + (2/25) * ((min entityCount 3 : Nat) : ℚ)
  let b2 := b1 + (1/10) * (risk - 3/10)
  max (7/20) (min (17/20) b2)

def SUPPORT_EVIDENCE_INDICATORS : List (String × List String) :=
  [("official", ["official", "government", "authorities", "spokesperson", "statement",
                 "press release", "ministry", "agency", "department"]),
   ("statistical", ["study", "research", "data", "survey", "statistics", "figures",
                    "analysis", "report", "metrics", "numbers"]),
   ("eyewitness", ["resident", "witness", "local", "on the ground", "firsthand",
                   "eyewitness", "passerby", "neighbor"]),
   ("media", ["reported by", "according to", "sources say", "media reports",
              "journalist", "correspondent", "broadcast"]),
   ("expert", ["expert", "scientist", "doctor", "professor", "analyst",
               "specialist", "researcher"])]

/-- DetectorAgent._identify_supporting_evidence_types. -/
def identify_supporting_evidence_types (claimLower : List Char) : List String :=
  ((SUPPORT_EVIDENCE_INDICATORS.filter
      (fun p => p.2.any (fun w => containsSub w.data claimLower))).map (·.1)).take 3

/-- The temporal-indicator table in declaration order. Python stores each
category as a set and appends the first member found when iterating it; set
iteration order is unspecified, so the model iterates the literal order. -/
def TEMPORAL_INDICATORS : List (String × List String) :=
  [("immediate", ["breaking", "just now", "moments ago", "right now", "live"]),
   ("short_term", ["today", "tonight", "tomorrow", "yesterday", "this morning",
                   "this evening", "this week", "next few hours"]),
   ("medium_term", ["past 24 hours", "past few days", "last week", "recent", "this month",
                    "past month", "next week"]),
   ("long_term", ["past year", "over the past", "several months", "this year",
                  "last year", "coming months"])]

def temporalCategory (name : String) : List String :=
  match TEMPORAL_INDICATORS.find? (fun p => p.1 = name) with
  | some p => p.2
  | none => []

/-- DetectorAgent._extract_temporal_indicators: at most one indicator per
category, capped at 3. -/
def extract_temporal_indicators (claimLower : List Char) : List String :=
  (TEMPORAL_INDICATORS.filterMap
      (fun p => p.2.find? (fun w => containsSub w.data claimLower))).take 3

/-- DetectorAgent._calculate_evidence_confidence. -/
def calculate_evidence_confidence (supportingTypes temporalIndicators : List String) : ℚ :=
  let b1 : ℚ :=
    if supportingTypes.contains "official" then 3/20
    else if supportingTypes.contains "statistical" then 1/10
    else if supportingTypes.contains "expert" then 2/25
    else 0
  let b2 := b1 +
    (if 1 < supportingTypes.length then (1/20) * ((supportingTypes.length : ℚ) - 1) else 0)
  let b3 := b2 +
    (if temporalIndicators.any (fun i => (temporalCategory "immediate").contains i) then 2/25
     else if temporalIndicators.any (fun i => (temporalCategory "short_term").contains i) then 1/25
     else 0)
  min (1/4) b3

/-! ### Search queries, notes, complexity and detect -/

def DOMAIN_HINTS : List (String × List String) :=
  [("health", ["official health update", "health ministry statement", "medical report"]),
   ("politics", ["fact check", "official statement", "government announcement"]),
   ("travel", ["status update", "travel advisory", "flight information"]),
   ("disaster", ["relief update", "emergency services", "damage assessment"]),
   ("finance", ["market news", "financial report", "economic update"]),
   ("technology", ["cyber alert", "security update", "tech news"])]

/-- DetectorAgent._deduplicate_queries: case-insensitive deduplication of the
stripped queries, preserving first-seen order and dropping empty queries. -/
def dedupQueriesAux : List String → List String → List String
  | _, [] => []
  | seen, q :: rest =>
    let normalized := String.mk (lowerL (pyStrip q.data))
    if normalized = "" || seen.contains normalized then dedupQueriesAux seen rest
    else String.mk (pyStrip q.data) :: dedupQueriesAux (normalized :: seen) rest

def dedup_queries (qs : List String) : List String := dedupQueriesAux [] qs

/-- DetectorAgent._generate_search_queries. -/
def generate_search_queries (claim : String) (st : StructuredClaim)
    (entities : List String) (domain : String) : List String :=
  let q1 := [claim] ++
    (if isTruthyStr st.subject && isTruthyStr st.action then
      [optVal st.subject ++ " " ++ optVal st.action] else [])
  let q2 := q1 ++
    (if isTruthyStr st.location && isTruthyStr st.action then
      [optVal st.location ++ " " ++ optVal st.action] else [])
  let q3 := q2 ++
    (if isTruthyStr st.location && isTruthyStr st.time then
      [optVal st.location ++ " " ++ optVal st.time] else [])
  let q4 := q3 ++
    ((entities.take 2).filterMap (fun ent =>
      if isTruthyStr st.action then some ("\"" ++ ent ++ "\" " ++ optVal st.action) else none))
  let q5 := q4 ++
    (match DOMAIN_HINTS.find? (fun p => p.1 = domain) with
     | some p =>
       if isTruthyStr st.subject then
         (p.2.take 2).map (fun hint => "\"" ++ optVal st.subject ++ "\" " ++ hint)
       else []
     | none => [])
  dedup_queries q5

def EVIDENCE_MODIFIERS : List (String × List String) :=
  [("official", ["official statement", "government confirmation", "press release", "authorities"]),
   ("statistical", ["study", "research", "official data", "statistics", "report"]),
   ("eyewitness", ["witness accounts", "resident reports", "firsthand accounts", "local sources"]),
   ("media", ["news report", "journalist account", "media coverage", "broadcast"]),
   ("expert", ["expert analysis", "specialist opinion", "professional assessment"])]

/-- DetectorAgent._generate_contextual_search_queries. -/
def generate_contextual_search_queries (st : StructuredClaim)
    (supportingTypes : List String) : List String :=
  (supportingTypes.map (fun t =>
    match EVIDENCE_MODIFIERS.find? (fun p => p.1 = t) with
    | some p =>
      if isTruthyStr st.subject then
        (p.2.take 2).map (fun m => "\"" ++ optVal st.subject ++ "\" " ++ m)
      else []
    | none => [])).flatten

def replaceUnderscores (s : String) : String :=
  String.mk (s.data.map (fun c => if c = '_' then ' ' else c))

/-- The :.2f format for the nonnegative multiples of 1/100 produced by the
risk score (binary-float rounding never differs on these values). -/
def formatQ2 (q : ℚ) : String :=
  let cents : Int := Int.floor (q * 100)
  let ip := cents / 100
  let fp := (cents % 100).toNat
  toString ip ++ "." ++ (if fp < 10 then "0" else "") ++ toString fp

/-- DetectorAgent._build_notes. -/
def build_notes (claimType domain : String) (entities : List String)
    (risk : ℚ) (st : StructuredClaim) : String :=
  let entityStr := if !entities.isEmpty then joinSep ", " (entities.take 3)
    else "no specific entities"
  let action := if isTruthyStr st.action then optVal st.action else "unspecified action"
  "Domain: " ++ domain ++ ". Classified as " ++ replaceUnderscores claimType ++ " – "
    ++ action ++ ". Entities: " ++ entityStr ++ ". Risk score " ++ formatQ2 risk ++ "."

/-- DetectorAgent._build_enhanced_notes. -/
def build_enhanced_notes (baseNotes complexity : String)
    (supportingTypes temporalIndicators quantitativeElements : List String)
    (risk : ℚ) : String :=
  let p2 := [baseNotes, "Complexity: " ++ complexity ++ "."] ++
    [if !supportingTypes.isEmpty then "Evidence: " ++ joinSep ", " supportingTypes ++ "."
     else "Evidence: none mentioned."]
  let p3 := p2 ++
    (if !temporalIndicators.isEmpty then
      ["Temporal: " ++ joinSep ", " (temporalIndicators.take 2) ++ "."] else [])
  let p4 := p3 ++
    (if !quantitativeElements.isEmpty then
      ["Quantitative: " ++ joinSep ", " (quantitativeElements.take 2) ++ "."] else [])
  let riskLevel := if (13/20 : ℚ) < risk then "HIGH"
    else if (9/20 : ℚ) < risk then "MEDIUM" else "LOW"
  joinSep " | " (p4 ++ ["Priority: " ++ riskLevel])

/-- bool(re.search of the conjunction pattern) on the lower-cased claim. -/
def hasConjunction (claimLower : List Char) : Bool :=
  (scanFirstAux (fun s => firstAltAt ["and", "or"] s) (claimLower.length + 1) true claimLower).isSome

/-- re.search of a comma or period, whitespace, then an uppercase letter. -/
def hasMultipleClauses : List Char → Bool
  | [] => false
  | c :: cs =>
    ((c = ',' || c = '.') &&
      (let ws := cs.takeWhile isWsChar
       !ws.isEmpty &&
         (match cs.dropWhile isWsChar with
          | d :: _ => isUpperCh d
          | [] => false)))
    || hasMultipleClauses cs

/-- DetectorAgent._assess_claim_complexity. Note that the simple branch of
the source checks multiple clauses and quantitative elements but not
conjunctions. -/
def assess_claim_complexity (claim : List Char) : String :=
  let word_count := wordCount claim
  let entity_count := (extract_entities claim).length
  let has_conjunctions := hasConjunction (lowerL claim)
  let has_multiple_clauses := hasMultipleClauses claim
  let has_quantitative := !(extract_quantitative claim).isEmpty
  if word_count ≤ 15 && entity_count ≤ 2 && !has_multiple_clauses && !has_quantitative then
    "simple"
  else if word_count ≤ 40 && entity_count ≤ 4 && !has_conjunctions then
    "moderate"
  else "complex"

structure DetectionResult where
  claim : String
  domain : String
  claim_type : String
  entities : List String
  keywords : List String
  structured_claim : StructuredClaim
  search_queries : List String
  risk_score : ℚ
  confidence : ℚ
  notes : String
  claim_complexity : String
  supporting_evidence_types : List String
  temporal_indicators : List String
  quantitative_elements : List String
deriving DecidableEq, Repr

/-- The body of DetectorAgent.detect on the stripped claim. -/
def detectBody (clean : List Char) : DetectionResult :=
  let claim_lower := lowerL clean
  let claim_type := classify_claim claim_lower
  let domain := detect_domain claim_lower
  let entities := extract_entities clean
  let keywords := extract_keywords claim_lower
  let structured := build_structured_claim clean entities
  let queries := generate_search_queries (String.mk clean) structured entities domain
  let risk := score_risk clean claim_type
  let confidence := score_confidence claim_type risk entities.length
  let notes := build_notes claim_type domain entities risk structured
  let complexity := assess_claim_complexity clean
  let supporting_types := identify_supporting_evidence_types claim_lower
  let temporal_indicators := extract_temporal_indicators claim_lower
  let quantitative_elements := extract_quantitative clean
  let evidence_bonus := calculate_evidence_confidence supporting_types temporal_indicators
  let adjusted_confidence := min ((19 : ℚ)/20) (confidence + evidence_bonus)
  let enhanced_notes := build_enhanced_notes notes complexity supporting_types
    temporal_indicators quantitative_elements risk
  let contextual_queries := generate_contextual_search_queries structured supporting_types
  let all_queries := (dedup_queries (queries ++ contextual_queries)).take 8
  { claim := String.mk clean
    domain := domain
    claim_type := claim_type
    entities := entities
    keywords := keywords
    structured_claim := structured
    search_queries := all_queries
    risk_score := risk
    confidence := adjusted_confidence
    notes := enhanced_notes
    claim_complexity := complexity
    supporting_evidence_types := supporting_types
    temporal_indicators := temporal_indicators
    quantitative_elements := quantitative_elements }

/-- DetectorAgent.detect: the length validation precedes all extraction
work; a failing claim raises before anything else happens. -/
def detect (claim : String) : Except String DetectionResult :=
  let clean := pyStrip claim.data
  if clean.length < 8 then Except.error "Claim must be at least 8 characters long"
  else Except.ok (detectBody clean)

/-! ### Verifier agent (verifier_agent.py)

The evidence-aggregation stage (the FAISS queries and the RSS feed) only
consumes external collaborators, so its outcome is supplied by the
environment as an already aggregated evidence list; the claims under study
concern the synthesis stage, whose parsing and defaulting logic is embedded
below from the source. The reasoning call is a function of the prompt held
in the environment; its result models the stripped message content, and an
error models a raised exception. The second component returned by the
verifier records which external reasoning calls were attempted. -/

structure EvidenceItem where
  title : String
  url : String := ""
  summary : String := ""
  stance : String := "neutral"
  published : Option String := none
  source_domain : Option String := none
  origin : String := "dataset"
deriving DecidableEq, Repr

structure VerificationResult where
  claim : String
  verdict : String
  confidence : ℚ
  rationale : String
  evidence : List EvidenceItem := []
deriving DecidableEq, Repr

structure VerifierEnv where
  groqPresent : Bool
  groqRespond : String → Except String String
  evidence : List EvidenceItem

/-- Python round() to three decimals: round half to even. -/
def roundHalfEven (q : ℚ) : Int :=
  let f := Int.floor q
  let r := q - f
  if r < 1/2 then f
  else if 1/2 < r then f + 1
  else if f % 2 = 0 then f else f + 1

def roundQ3 (q : ℚ) : ℚ := (roundHalfEven (q * 1000) : ℚ) / 1000

/-- The VERDICT search, case-insensitive: the literal VERDICT:, optional
whitespace, then TRUE, FALSE or MIXED in order. The group is lower-cased by
the caller, so the canonical lower-case alternative is returned directly. -/
def verdictWordsAt : List String → List Char → Option (List Char × List Char)
  | [], _ => none
  | w :: ws, s =>
    if beginsWithCI w.data s then some (w.data, s.drop w.data.length)
    else verdictWordsAt ws s

def verdictMatchAt (s : List Char) : Option (List Char × List Char) :=
  if beginsWithCI "VERDICT:".data s then
    verdictWordsAt ["true", "false", "mixed"] ((s.drop 8).dropWhile isWsChar)
  else none

def searchVerdict (out : List Char) : Option String :=
  (scanAnyFirst verdictMatchAt out).map (fun p => String.mk p.1)

def natOfDigits (ds : List Char) : Nat :=
  ds.foldl (fun a c => a * 10 + (c.toNat - 48)) 0

/-- float() of a decimal literal with integer part and fraction digits,
modelled exactly as a rational. -/
def qOfDigitParts (ipart fpart : List Char) : ℚ :=
  (natOfDigits ipart : ℚ) + (natOfDigits fpart : ℚ) / ((10 : ℚ) ^ fpart.length)

/-- The number regex of the CONFIDENCE line: optional digits, an optional
dot taken only when digits follow (otherwise the trailing digits come from
the integer part alone), at least one digit in total. -/
def parseNumAt (s : List Char) : Option (ℚ × List Char) :=
  let d1 := s.takeWhile isDigitCh
  let r1 := s.drop d1.length
  match r1 with
  | '.' :: r2 =>
    match r2.takeWhile isDigitCh with
    | [] => if d1.isEmpty then none else some (qOfDigitParts d1 [], r1)
    | d2 => some (qOfDigitParts d1 d2, r2.drop d2.length)
  | _ => if d1.isEmpty then none else some (qOfDigitParts d1 [], r1)

def confMatchAt (s : List Char) : Option ℚ :=
  if beginsWith "CONFIDENCE:".data s then
    (parseNumAt ((s.drop 11).dropWhile isWsChar)).map (·.1)
  else none

/-- The CONFIDENCE search is case-sensitive (its re.search has no flag). -/
def searchConfidenceNum (out : List Char) : Option ℚ := scanAnyFirst confMatchAt out

/-- The REASON search, case-sensitive, with DOTALL: the group is the rest of
the string after optional whitespace; when only whitespace follows, the
greedy whitespace backtracks one character so the group is that final
whitespace character; when nothing follows, the match fails and no later
occurrence can exist. -/
def reasonMatchAt (s : List Char) : Option (List Char) :=
  if beginsWith "REASON:".data s then
    let rest := s.drop 7
    if rest.isEmpty then none
    else
      let g := rest.dropWhile isWsChar
      some (if g.isEmpty then (match rest.getLast? with | some c => [c] | none => []) else g)
  else none

def searchReasonGroup (out : List Char) : Option (List Char) := scanAnyFirst reasonMatchAt out

/-- One evidence block of the evidence digest. -/
def evidenceLine (i : Nat) (e : EvidenceItem) : String :=
  let dom := match e.source_domain with
    | some s => if !(s = "") then s else "News"
    | none => "News"
  let pub := match e.published with
    | some s => if !(s = "") then s else "Recent"
    | none => "Recent"
  "[" ++ toString (i + 1) ++ "] " ++ dom ++ " | " ++ pub ++ "\n"
    ++ e.title ++ "\n" ++ String.mk (pyStrip (e.summary.data.take 1100))

def buildEvidenceText (evidence : List EvidenceItem) : String :=
  if !evidence.isEmpty then joinSep "\n\n" (mapIdxAux evidenceLine 0 (evidence.take 20))
  else "No credible sources found."

/-- The fixed prompt sent to the reasoning collaborator (apostrophes of the
source text are omitted; the prompt is opaque to every claim). -/
def buildGroqPrompt (claim : String) (evidence : List EvidenceItem) : String :=
  "You are the top fact-checking AI of India. Current date: November 29, 2025.\n\n"
    ++ "CLAIM:\n\"" ++ claim ++ "\"\n\n"
    ++ "EVIDENCE FROM OFFICIAL GOVT SOURCES, NEWS, AND KNOWLEDGE BASE:\n"
    ++ buildEvidenceText evidence
    ++ "\n\nINSTRUCTIONS:\n- Use only the evidence above + your knowledge up to November 2025.\n"
    ++ "- Trust official domains: gov.in, nic.in, cbse.gov.in, nta.ac.in, pib.gov.in\n"
    ++ "- Be accurate for all states: Delhi, UP, Bihar, Maharashtra, Tamil Nadu, etc.\n"
    ++ "- Do not assume — only conclude if evidence confirms.\n\n"
    ++ "Answer EXACTLY in this format:\n\nVERDICT: TRUE / FALSE / MIXED\n"
    ++ "CONFIDENCE: 0.XX\nREASON: One clear, professional sentence.\n"

/-- VerifierAgent.verify_claim, lines 44-183: the aggregated evidence comes
from the environment, the synthesis stage is embedded from the source. The
returned list names the reasoning calls attempted. -/
def verifier_verify_claim (env : VerifierEnv) (claim : String) :
    VerificationResult × List String :=
  let evidence := env.evidence
  let prompt := buildGroqPrompt claim evidence
  let step :=
    if env.groqPresent = false then
      (("unverified", (3 : ℚ)/10, "Verification service unavailable"), ([] : List String))
    else
      match env.groqRespond prompt with
      | Except.ok raw =>
        let output := pyStrip raw.data
        ((match searchVerdict output with
          | some v => v
          | none => "unverified",
          match searchConfidenceNum output with
          | some c => c
          | none => (1 : ℚ)/2,
          match searchReasonGroup output with
          | some g => String.mk (pyStrip g)
          | none => "Analysis completed"),
         ["groq"])
      | Except.error _ => (("unverified", (3 : ℚ)/10, "Service error"), ["groq"])
  ({ claim := claim
     verdict := step.1.1
     confidence := roundQ3 step.1.2.1
     rationale := step.1.2.2
     evidence := evidence.take 20 }, step.2)

/-! ### Workflow state machine (graph/state.py and graph/workflow.py) -/

structure WMessage where
  role : String
  content : String
deriving DecidableEq, Repr

structure WState where
  claim : String
  user_id : Option String
  detection_result : Option DetectionResult
  verification_result : Option VerificationResult
  should_continue : Bool
  next_node : Option String
  messages : List WMessage
  verification_id : Option String
  timestamp : Option String
  search_queries : Option (List String)
  retrieved_evidence : Option (List EvidenceItem)
  evidence_analysis : Option Unit
deriving Repr

/-- state.set_detection_result. A dataclass instance is always truthy, so
the conditional of the source always stores its search queries. -/
def set_detection_result (s : WState) (dr : DetectionResult) : WState :=
  { s with detection_result := some dr, search_queries := some dr.search_queries }

def set_verification_result (s : WState) (vr : VerificationResult) : WState :=
  { s with verification_result := some vr }

/-- workflow.detect_claim, the detect node. -/
def detect_claim (s : WState) : WState :=
  match detect s.claim with
  | Except.ok dr =>
    { set_detection_result s dr with should_continue := true, next_node := some "verify" }
  | Except.error e =>
    { s with should_continue := false, verification_result := none,
             messages := s.messages ++ [⟨"system", "Detection failed with error: " ++ e⟩] }

/-- The parameter list of VerifierAgent.verify_claim in the source is
(self, claim); the verify node calls it with one positional argument and
the keyword argument detection. -/
def verify_claim_method_params : List String := ["self", "claim"]

def verify_call_kwargs : List String := ["detection"]

/-- Python binds every keyword argument of a call against the parameter
list; a keyword absent from it raises TypeError before the body runs. -/
def kwargsAccepted (params kwargs : List String) : Bool :=
  kwargs.all (fun k => params.contains k)

def typeErrorMsg : String :=
  "VerifierAgent.verify_claim() got an unexpected keyword argument detection"

/-- The call performed by the verify node, including the Python keyword
binding step. The detection argument would only be consumed if the binding
succeeded. -/
def verify_claim_call (env : VerifierEnv) (claim : String)
    (_detection : Option DetectionResult) : Except String VerificationResult :=
  if kwargsAccepted verify_claim_method_params verify_call_kwargs then
    Except.ok (verifier_verify_claim env claim).1
  else Except.error typeErrorMsg

/-- workflow.verify_claim, the verify node. -/
def verify_claim_node (env : VerifierEnv) (s : WState) : WState :=
  match verify_claim_call env s.claim s.detection_result with
  | Except.ok vr =>
    { set_verification_result s vr with
        should_continue := false, retrieved_evidence := some vr.evidence }
  | Except.error e =>
    { s with should_continue := false, verification_result := none,
             messages := s.messages ++ [⟨"system", "Verification failed with error: " ++ e⟩] }

/-- workflow.should_verify: the conditional edge out of the detect node.
Despite its declared return type it yields the string detect whenever no
detection result is present, and the edge mapping routes that string back
to the detect node. -/
def should_verify (s : WState) : String :=
  if s.detection_result.isNone then "detect" else "verify"

inductive GNode
  | detect
  | verify
deriving DecidableEq, Repr

/-- The message of the langgraph GraphRecursionError raised when the
default recursion limit of 25 steps is exhausted. -/
def graphRecursionMsg : String :=
  "Recursion limit of 25 reached without hitting a stop condition"

/-- Execution of the compiled graph: the detect node is followed by the
conditional edge (mapping detect to detect and verify to verify), the
verify node by the fixed edge to END. Fuel models the langgraph recursion
limit; the trace lists the executed nodes. -/
def runGraphAux (env : VerifierEnv) :
    Nat → GNode → WState → List String → Except String WState × List String
  | 0, _, _, trace => (Except.error graphRecursionMsg, trace)
  | n + 1, GNode.detect, s, trace =>
    let s2 := detect_claim s
    let trace2 := trace ++ ["detect"]
    if should_verify s2 = "detect" then runGraphAux env n GNode.detect s2 trace2
    else runGraphAux env n GNode.verify s2 trace2
  | _ + 1, GNode.verify, s, trace =>
    let s2 := verify_claim_node env s
    (Except.ok s2, trace ++ ["verify"])

/-- The initial state built by run_verification_workflow. -/
def initial_state (claim : String) (user_id verification_id : Option String) : WState :=
  { claim := claim
    user_id := user_id
    detection_result := none
    verification_result := none
    should_continue := true
    next_node := none
    messages := []
    verification_id := verification_id
    timestamp := none
    search_queries := none
    retrieved_evidence := none
    evidence_analysis := none }

def invokeGraph (env : VerifierEnv) (s0 : WState) : Except String WState × List String :=
  runGraphAux env 25 GNode.detect s0 []

/-- workflow.run_verification_workflow: the graph invocation inside a
try/except that converts any raised exception into an error state built
from the initial state. The trace of executed nodes is returned alongside. -/
def run_verification_workflow (env : VerifierEnv) (claim : String)
    (user_id verification_id : Option String) : WState × List String :=
  match invokeGraph env (initial_state claim user_id verification_id) with
  | (Except.ok s, trace) => (s, trace)
  | (Except.error e, trace) =>
    ({ initial_state claim user_id verification_id with
         verification_result := none
         should_continue := false
         messages := (initial_state claim user_id verification_id).messages ++
           [⟨"system", "Workflow execution failed with error: " ++ e⟩] }, trace)

/-- Whether some system message of the log starts with the given text. -/
def hasSystemMsgStarting (p : String) (msgs : List WMessage) : Bool :=
  msgs.any (fun m => m.role == "system" && beginsWith p.data m.content.data)

/-! ### Helper lemmas -/

lemma take_length_le {α : Type} (n : Nat) (l : List α) : (l.take n).length ≤ n := by
  simp [List.length_take]

lemma extract_entities_len (s : List Char) : (extract_entities s).length ≤ 5 := by
  unfold extract_entities extract_entities_l
  simp [List.length_take]

lemma extract_keywords_len (s : List Char) : (extract_keywords s).length ≤ 8 := by
  unfold extract_keywords
  exact take_length_le 8 _

lemma extract_quantitative_len (s : List Char) : (extract_quantitative s).length ≤ 5 := by
  unfold extract_quantitative
  exact take_length_le 5 _

lemma extract_temporal_len (s : List Char) : (extract_temporal_indicators s).length ≤ 3 := by
  unfold extract_temporal_indicators
  exact take_length_le 3 _

lemma identify_supporting_len (s : List Char) :
    (identify_supporting_evidence_types s).length ≤ 3 := by
  unfold identify_supporting_evidence_types
  exact take_length_le 3 _

lemma score_risk_lb (c : List Char) (t : String) : (1 : ℚ)/10 ≤ score_risk c t := by
  unfold score_risk
  exact le_max_left _ _

lemma score_risk_ub (c : List Char) (t : String) : score_risk c t ≤ 1 := by
  unfold score_risk
  exact max_le (by norm_num) (min_le_left _ _)

lemma score_confidence_lb (t : String) (r : ℚ) (n : Nat) :
    (7 : ℚ)/20 ≤ score_confidence t r n := by
  unfold score_confidence
  exact le_max_left _ _

lemma calculate_evidence_confidence_nonneg (st ti : List String) :
    0 ≤ calculate_evidence_confidence st ti := by
  unfold calculate_evidence_confidence
  refine le_min (by norm_num) ?_
  split_ifs <;> try norm_num
  all_goals
    have h2 : (1 : ℚ) ≤ (st.length : ℚ) := by
      have h1 : 1 ≤ st.length := by omega
      exact_mod_cast h1
  all_goals nlinarith

/-- Inverting the detect wrapper: a successful detection is the body applied
to the stripped claim. -/
lemma detect_ok_iff (claim : String) (r : DetectionResult) (h : detect claim = Except.ok r) :
    r = detectBody (pyStrip claim.data) ∧ ¬ (pyStrip claim.data).length < 8 := by
  simp only [detect] at h
  split at h
  · exact absurd h (by simp)
  · rename_i hge
    exact ⟨((Except.ok.injEq _ _).mp h).symm, hge⟩

/-! ### C5: bounds of every produced DetectionResult -/

/-- C5: for every input claim accepted by DetectorAgent.detect, the produced
DetectionResult has at most 8 search queries, 5 entities, 8 keywords,
5 quantitative elements, 3 temporal indicators and 3 supporting evidence
types, a risk score in the closed interval from 0.10 to 1.00 and a
confidence in the closed interval from 0.35 to 0.95. -/
theorem c5_detection_result_bounds (claim : String) (r : DetectionResult)
    (h : detect claim = Except.ok r) :
    r.search_queries.length ≤ 8 ∧ r.entities.length ≤ 5 ∧ r.keywords.length ≤ 8 ∧
    r.quantitative_elements.length ≤ 5 ∧ r.temporal_indicators.length ≤ 3 ∧
    r.supporting_evidence_types.length ≤ 3 ∧
    (1 : ℚ)/10 ≤ r.risk_score ∧ r.risk_score ≤ 1 ∧
    (7 : ℚ)/20 ≤ r.confidence ∧ r.confidence ≤ (19 : ℚ)/20 := by
  obtain ⟨hr, -⟩ := detect_ok_iff claim r h
  subst hr
  refine ⟨take_length_le 8 _, extract_entities_len _, extract_keywords_len _,
    extract_quantitative_len _, extract_temporal_len _, identify_supporting_len _,
    score_risk_lb _ _, score_risk_ub _ _, ?_, min_le_left _ _⟩
  refine le_min (by norm_num) ?_
  have h1 := score_confidence_lb (classify_claim (lowerL (pyStrip claim.data)))
    (score_risk (pyStrip claim.data) (classify_claim (lowerL (pyStrip claim.data))))
    (extract_entities (pyStrip claim.data)).length
  have h2 := calculate_evidence_confidence_nonneg
    (identify_supporting_evidence_types (lowerL (pyStrip claim.data)))
    (extract_temporal_indicators (lowerL (pyStrip claim.data)))
  linarith

/-- Witness for C5 at a concrete accepted claim. -/
theorem c5_detection_result_bounds_witness :
    (detectBody (pyStrip ("Mumbai airport closed").data)).search_queries.length ≤ 8 ∧
    (detectBody (pyStrip ("Mumbai airport closed").data)).entities.length ≤ 5 ∧
    (detectBody (pyStrip ("Mumbai airport closed").data)).keywords.length ≤ 8 ∧
    (detectBody (pyStrip ("Mumbai airport closed").data)).quantitative_elements.length ≤ 5 ∧
    (detectBody (pyStrip ("Mumbai airport closed").data)).temporal_indicators.length ≤ 3 ∧
    (detectBody (pyStrip ("Mumbai airport closed").data)).supporting_evidence_types.length ≤ 3 ∧
    (1 : ℚ)/10 ≤ (detectBody (pyStrip ("Mumbai airport closed").data)).risk_score ∧
    (detectBody (pyStrip ("Mumbai airport closed").data)).risk_score ≤ 1 ∧
    (7 : ℚ)/20 ≤ (detectBody (pyStrip ("Mumbai airport closed").data)).confidence ∧
    (detectBody (pyStrip ("Mumbai airport closed").data)).confidence ≤ (19 : ℚ)/20 :=
  c5_detection_result_bounds "Mumbai airport closed"
    (detectBody (pyStrip ("Mumbai airport closed").data)) (by rfl)

/-! ### Workflow lemmas -/

/-- When detection fails, the detect node leaves the detection result empty,
so the conditional edge routes back to the detect node until the recursion
limit is exhausted; the trace records one detect execution per step. -/
lemma detect_fail_loop (env : VerifierEnv) (msg : String) :
    ∀ (n : Nat) (s : WState) (tr : List String),
      s.detection_result = none → detect s.claim = Except.error msg →
      runGraphAux env n GNode.detect s tr =
        (Except.error graphRecursionMsg, tr ++ List.replicate n "detect") := by
  intro n
  induction n with
  | zero =>
    intro s tr _ _
    simp [runGraphAux]
  | succ k ih =>
    intro s tr h1 h2
    have hdc : detect_claim s =
        { s with should_continue := false, verification_result := none,
                 messages := s.messages ++ [⟨"system", "Detection failed with error: " ++ msg⟩] } := by
      unfold detect_claim
      rw [h2]
    have hsv : should_verify (detect_claim s) = "detect" := by
      rw [hdc]
      unfold should_verify
      simp [h1]
    simp only [runGraphAux, hsv, if_pos]
    rw [ih (detect_claim s) (tr ++ ["detect"]) (by rw [hdc]; simpa using h1)
      (by rw [hdc]; simpa using h2)]
    simp [List.replicate_succ]

/-- When detection succeeds, the graph performs exactly one detect step and
one verify step and stops. -/
lemma runGraph_detect_ok (env : VerifierEnv) (n : Nat) (s : WState) (tr : List String)
    (dr : DetectionResult) (h : detect s.claim = Except.ok dr) :
    runGraphAux env (n + 2) GNode.detect s tr =
      (Except.ok (verify_claim_node env
        { set_detection_result s dr with should_continue := true, next_node := some "verify" }),
       tr ++ ["detect", "verify"]) := by
  have hdc : detect_claim s =
      { set_detection_result s dr with should_continue := true, next_node := some "verify" } := by
    unfold detect_claim
    rw [h]
  have hsv : should_verify (detect_claim s) = "verify" := by
    rw [hdc]
    unfold should_verify
    simp [set_detection_result]
  simp only [runGraphAux, hsv]
  rw [if_neg (by decide : ¬ ("verify" : String) = "detect")]
  rw [hdc]
  simp

/-- The TypeError state produced by the verify node. -/
lemma verify_node_error (env : VerifierEnv) (s : WState) :
    verify_claim_node env s =
      { s with should_continue := false, verification_result := none,
               messages := s.messages ++
                 [⟨"system", "Verification failed with error: " ++ typeErrorMsg⟩] } := by
  unfold verify_claim_node verify_claim_call
  rw [if_neg (by decide)]

/-! ### C1, C2, C3, C4: workflow behaviour -/

/-- C1: the verify node passes the keyword argument detection, which the
signature of VerifierAgent.verify_claim does not accept, so the call raises
TypeError for every detection value; whenever the detect stage succeeds the
final state carries a system message starting with the verification-failure
text and a null verification result; and no run of run_verification_workflow
ever produces a non-null verification result, whatever the collaborators do. -/
theorem c1_verify_node_typeerror (env : VerifierEnv) (claim : String) (u v : Option String) :
    kwargsAccepted verify_claim_method_params verify_call_kwargs = false ∧
    (∀ d : Option DetectionResult, verify_claim_call env claim d = Except.error typeErrorMsg) ∧
    (∀ r : DetectionResult, detect claim = Except.ok r →
      hasSystemMsgStarting "Verification failed with error"
        (run_verification_workflow env claim u v).1.messages = true ∧
      (run_verification_workflow env claim u v).1.should_continue = false) ∧
    (run_verification_workflow env claim u v).1.verification_result = none := by
  have hk : kwargsAccepted verify_claim_method_params verify_call_kwargs = false := by decide
  have hcall : ∀ d : Option DetectionResult,
      verify_claim_call env claim d = Except.error typeErrorMsg := by
    intro d
    unfold verify_claim_call
    rw [hk]
    simp
  cases hdet : detect claim with
  | ok dr =>
    have hrun : runGraphAux env 25 GNode.detect (initial_state claim u v) [] =
        (Except.ok (verify_claim_node env
          { set_detection_result (initial_state claim u v) dr with
              should_continue := true, next_node := some "verify" }),
         [] ++ ["detect", "verify"]) :=
      runGraph_detect_ok env 23 (initial_state claim u v) [] dr hdet
    have hout : run_verification_workflow env claim u v =
        (verify_claim_node env
          { set_detection_result (initial_state claim u v) dr with
              should_continue := true, next_node := some "verify" },
         ["detect", "verify"]) := by
      unfold run_verification_workflow invokeGraph
      rw [hrun]
      simp
    refine ⟨hk, hcall, ?_, ?_⟩
    · intro r _
      rw [hout, verify_node_error]
      constructor
      · simp only [hasSystemMsgStarting, set_detection_result, initial_state]
        decide
      · rfl
    · rw [hout, verify_node_error]
  | error e =>
    have hrun : runGraphAux env 25 GNode.detect (initial_state claim u v) [] =
        (Except.error graphRecursionMsg, [] ++ List.replicate 25 "detect") :=
      detect_fail_loop env e 25 (initial_state claim u v) [] rfl hdet
    have hout : (run_verification_workflow env claim u v).1.verification_result = none := by
      unfold run_verification_workflow invokeGraph
      rw [hrun]
    refine ⟨hk, hcall, ?_, hout⟩
    intro r hr
    exact absurd hr (by simp)

/-- Witness for C1 at a concrete accepted claim and a concrete environment. -/
def c1_env : VerifierEnv := ⟨false, fun _ => Except.error "", []⟩

theorem c1_verify_node_typeerror_witness :
    hasSystemMsgStarting "Verification failed with error"
      (run_verification_workflow c1_env "Mumbai airport closed" none none).1.messages = true ∧
    (run_verification_workflow c1_env "Mumbai airport closed" none none).1.should_continue
      = false :=
  (c1_verify_node_typeerror c1_env "Mumbai airport closed" none none).2.2.1
    (detectBody (pyStrip ("Mumbai airport closed").data)) (by rfl)

/-- C2: run_verification_workflow always hands back a complete state value:
either the graph invocation succeeded and its final state is returned
unchanged, or the invocation raised and the returned state is the initial
state extended with a system message starting with the workflow-failure
text, with no verification result. -/
theorem c2_workflow_never_raises (env : VerifierEnv) (claim : String) (u v : Option String) :
    (invokeGraph env (initial_state claim u v)).1 =
        Except.ok (run_verification_workflow env claim u v).1 ∨
    (∃ e, (invokeGraph env (initial_state claim u v)).1 = Except.error e ∧
      (run_verification_workflow env claim u v).1.messages =
        [⟨"system", "Workflow execution failed with error: " ++ e⟩] ∧
      (run_verification_workflow env claim u v).1.verification_result = none ∧
      (run_verification_workflow env claim u v).1.claim = claim) := by
  rcases hig : invokeGraph env (initial_state claim u v) with ⟨res, tr⟩
  cases res with
  | ok s =>
    left
    simp [run_verification_workflow, hig]
  | error e =>
    right
    have hout : run_verification_workflow env claim u v =
        ({ initial_state claim u v with
             verification_result := none
             should_continue := false
             messages := (initial_state claim u v).messages ++
               [⟨"system", "Workflow execution failed with error: " ++ e⟩] }, tr) := by
      simp only [run_verification_workflow]
      rw [hig]
    refine ⟨e, by simp [hig], ?_, ?_, ?_⟩
    · rw [hout]
      simp [initial_state]
    · rw [hout]
    · rw [hout]
      simp [initial_state]

/-- C4: a claim whose stripped form is shorter than 8 characters makes
DetectorAgent.detect raise the validation error before any extraction work,
and the verify node is never executed in the workflow run, so no retrieval
or verification call happens for that claim. -/
theorem c4_short_claim_rejected (env : VerifierEnv) (claim : String) (u v : Option String)
    (h : (pyStrip claim.data).length < 8) :
    detect claim = Except.error "Claim must be at least 8 characters long" ∧
    (run_verification_workflow env claim u v).2.contains "verify" = false := by
  have hd : detect claim = Except.error "Claim must be at least 8 characters long" := by
    unfold detect
    simp [h]
  refine ⟨hd, ?_⟩
  have hrun : invokeGraph env (initial_state claim u v) =
      (Except.error graphRecursionMsg, [] ++ List.replicate 25 "detect") :=
    detect_fail_loop env _ 25 (initial_state claim u v) [] rfl hd
  simp only [run_verification_workflow, hrun]
  decide

def c4_env : VerifierEnv := ⟨false, fun _ => Except.error "", []⟩

/-- Witness for C4 at the concrete five-character claim short. -/
theorem c4_short_claim_rejected_witness :
    detect "short" = Except.error "Claim must be at least 8 characters long" ∧
    (run_verification_workflow c4_env "short" none none).2.contains "verify" = false :=
  c4_short_claim_rejected c4_env "short" none none (by decide)

/-! ### C3: what the caller actually receives when detection fails

The spec says the detect-failure state itself reaches the caller with its
detection-failure message. In the code, should_verify routes a state without
a detection result back to the detect node (contradicting its own declared
return type of verify or END), so the workflow loops until the recursion
limit raises; the try/except of run_verification_workflow then rebuilds an
error state from the initial state, and the detection-failure message is
discarded. The evaluation below exhibits this at the claim short. -/
def c3_env : VerifierEnv := ⟨false, fun _ => Except.error "", []⟩

/-- C3: at the failing input short the caller receives a state whose only
message is the workflow-execution-failure message; the detection-failure
message recorded by the detect node is not in the log. -/
theorem c3_detection_failure_message_lost :
    (run_verification_workflow c3_env "short" none none).1.verification_result = none ∧
    (run_verification_workflow c3_env "short" none none).1.should_continue = false ∧
    (run_verification_workflow c3_env "short" none none).1.messages =
      [⟨"system", "Workflow execution failed with error: " ++ graphRecursionMsg⟩] ∧
    hasSystemMsgStarting "Detection failed with error"
      (run_verification_workflow c3_env "short" none none).1.messages = false := by
  decide

/-! ### Verifier lemmas -/

/-- The result when the reasoning client is absent. -/
lemma verify_step_absent (env : VerifierEnv) (claim : String)
    (h : env.groqPresent = false) :
    verifier_verify_claim env claim =
      ({ claim := claim, verdict := "unverified", confidence := roundQ3 ((3 : ℚ)/10),
         rationale := "Verification service unavailable",
         evidence := env.evidence.take 20 }, []) := by
  simp only [verifier_verify_claim, h]
  rfl

/-- The result when the reasoning call raises. -/
lemma verify_step_error (env : VerifierEnv) (claim : String) (e : String)
    (h1 : env.groqPresent = true)
    (h2 : env.groqRespond (buildGroqPrompt claim env.evidence) = Except.error e) :
    verifier_verify_claim env claim =
      ({ claim := claim, verdict := "unverified", confidence := roundQ3 ((3 : ℚ)/10),
         rationale := "Service error",
         evidence := env.evidence.take 20 }, ["groq"]) := by
  simp only [verifier_verify_claim, h1, h2]
  rfl

/-- The result when the reasoning call returns text: each field is parsed
independently with its own default. -/
lemma verify_step_ok (env : VerifierEnv) (claim : String) (out : String)
    (h1 : env.groqPresent = true)
    (h2 : env.groqRespond (buildGroqPrompt claim env.evidence) = Except.ok out) :
    verifier_verify_claim env claim =
      ({ claim := claim,
         verdict := match searchVerdict (pyStrip out.data) with
           | some v => v
           | none => "unverified",
         confidence := roundQ3 (match searchConfidenceNum (pyStrip out.data) with
           | some c => c
           | none => (1 : ℚ)/2),
         rationale := match searchReasonGroup (pyStrip out.data) with
           | some g => String.mk (pyStrip g)
           | none => "Analysis completed",
         evidence := env.evidence.take 20 }, ["groq"]) := by
  simp only [verifier_verify_claim, h1, h2]
  rfl

lemma roundHalfEven_nonneg (q : ℚ) (h : 0 ≤ q) : 0 ≤ roundHalfEven q := by
  simp only [roundHalfEven]
  have hf : (0 : ℤ) ≤ Int.floor q := Int.floor_nonneg.mpr h
  split_ifs <;> omega

lemma roundQ3_nonneg (q : ℚ) (h : 0 ≤ q) : 0 ≤ roundQ3 q := by
  unfold roundQ3
  have h1 : (0 : ℤ) ≤ roundHalfEven (q * 1000) := roundHalfEven_nonneg _ (by positivity)
  have h2 : (0 : ℚ) ≤ (roundHalfEven (q * 1000) : ℚ) := by exact_mod_cast h1
  positivity

lemma qOfDigitParts_nonneg (a b : List Char) : 0 ≤ qOfDigitParts a b := by
  unfold qOfDigitParts
  positivity

lemma parseNumAt_nonneg (s : List Char) (p : ℚ × List Char)
    (h : parseNumAt s = some p) : 0 ≤ p.1 := by
  simp only [parseNumAt] at h
  split at h
  · split at h
    · split_ifs at h
      rcases (Option.some.injEq _ _).mp h.symm with rfl
      exact qOfDigitParts_nonneg _ _
    · rcases (Option.some.injEq _ _).mp h.symm with rfl
      exact qOfDigitParts_nonneg _ _
  · split_ifs at h
    rcases (Option.some.injEq _ _).mp h.symm with rfl
    exact qOfDigitParts_nonneg _ _

lemma confMatchAt_nonneg (s : List Char) (c : ℚ) (h : confMatchAt s = some c) : 0 ≤ c := by
  unfold confMatchAt at h
  split_ifs at h
  rcases Option.map_eq_some'.mp h with ⟨p, hp, rfl⟩
  exact parseNumAt_nonneg _ p hp

lemma searchConfidenceNum_nonneg : ∀ (s : List Char) (c : ℚ),
    searchConfidenceNum s = some c → 0 ≤ c := by
  intro s
  induction s with
  | nil =>
    intro c h
    simp [searchConfidenceNum, scanAnyFirst] at h
  | cons a as ih =>
    intro c h
    unfold searchConfidenceNum scanAnyFirst at h
    cases hm : confMatchAt (a :: as) with
    | some x =>
      rw [hm] at h
      rcases (Option.some.injEq _ _).mp h.symm with rfl
      exact confMatchAt_nonneg _ _ hm
    | none =>
      rw [hm] at h
      exact ih c h

/-! ### C7: absent reasoning collaborator -/

/-- C7: when the reasoning client is absent, VerifierAgent.verify_claim
deterministically returns verdict unverified, confidence 0.3 and the fixed
unavailability rationale, and no reasoning call is attempted. -/
theorem c7_reasoning_absent (env : VerifierEnv) (claim : String)
    (h : env.groqPresent = false) :
    (verifier_verify_claim env claim).1.verdict = "unverified" ∧
    (verifier_verify_claim env claim).1.confidence = (3 : ℚ)/10 ∧
    (verifier_verify_claim env claim).1.rationale = "Verification service unavailable" ∧
    (verifier_verify_claim env claim).2 = [] := by
  rw [verify_step_absent env claim h]
  refine ⟨rfl, ?_, rfl, rfl⟩
  show roundQ3 ((3 : ℚ)/10) = (3 : ℚ)/10
  decide

def c7_env : VerifierEnv := ⟨false, fun _ => Except.error "", []⟩

/-- Witness for C7 at a concrete environment without credentials. -/
theorem c7_reasoning_absent_witness :
    (verifier_verify_claim c7_env "Delhi schools closed tomorrow").1.verdict = "unverified" ∧
    (verifier_verify_claim c7_env "Delhi schools closed tomorrow").1.confidence = (3 : ℚ)/10 ∧
    (verifier_verify_claim c7_env "Delhi schools closed tomorrow").1.rationale =
      "Verification service unavailable" ∧
    (verifier_verify_claim c7_env "Delhi schools closed tomorrow").2 = [] :=
  c7_reasoning_absent c7_env "Delhi schools closed tomorrow" rfl

/-! ### C8: independent parsing defaults -/

/-- C8: when the reasoning collaborator answers with text, the three fields
are parsed independently: a missing VERDICT line defaults the verdict to
unverified, a missing CONFIDENCE line defaults the confidence to 0.5, a
missing REASON line defaults the rationale to Analysis completed, and a
present field is used whatever the other fields do; nothing raises. -/
theorem c8_parse_defaults (env : VerifierEnv) (claim out : String)
    (hp : env.groqPresent = true)
    (hr : env.groqRespond (buildGroqPrompt claim env.evidence) = Except.ok out) :
    (searchVerdict (pyStrip out.data) = none →
      (verifier_verify_claim env claim).1.verdict = "unverified") ∧
    (∀ w, searchVerdict (pyStrip out.data) = some w →
      (verifier_verify_claim env claim).1.verdict = w) ∧
    (searchConfidenceNum (pyStrip out.data) = none →
      (verifier_verify_claim env claim).1.confidence = (1 : ℚ)/2) ∧
    (∀ c, searchConfidenceNum (pyStrip out.data) = some c →
      (verifier_verify_claim env claim).1.confidence = roundQ3 c) ∧
    (searchReasonGroup (pyStrip out.data) = none →
      (verifier_verify_claim env claim).1.rationale = "Analysis completed") ∧
    (∀ g, searchReasonGroup (pyStrip out.data) = some g →
      (verifier_verify_claim env claim).1.rationale = String.mk (pyStrip g)) := by
  rw [verify_step_ok env claim out hp hr]
  refine ⟨?_, ?_, ?_, ?_, ?_, ?_⟩
  · intro h
    simp [h]
  · intro w h
    simp [h]
  · intro h
    simp [h]
    decide
  · intro c h
    simp [h]
  · intro h
    simp [h]
  · intro g h
    simp [h]

def c8_env : VerifierEnv := ⟨true, fun _ => Except.ok "CONFIDENCE: 0.7", []⟩

/-- Witness for C8: an output holding only a CONFIDENCE line uses the parsed
confidence while the other two fields fall back to their defaults. -/
theorem c8_parse_defaults_witness :
    (verifier_verify_claim c8_env "Delhi airport closed today").1.verdict = "unverified" ∧
    (verifier_verify_claim c8_env "Delhi airport closed today").1.confidence = (7 : ℚ)/10 ∧
    (verifier_verify_claim c8_env "Delhi airport closed today").1.rationale =
      "Analysis completed" := by
  have h := c8_parse_defaults c8_env "Delhi airport closed today" "CONFIDENCE: 0.7" rfl rfl
  refine ⟨h.1 (by decide), ?_, h.2.2.2.2.1 (by decide)⟩
  have hc := h.2.2.2.1 ((7 : ℚ)/10) (by decide)
  rw [hc]
  decide

/-! ### C6: the synthesized confidence is rounded but not clamped -/

def c6_env : VerifierEnv :=
  ⟨true, fun _ => Except.ok "VERDICT: TRUE\nCONFIDENCE: 2.5\nREASON: Confirmed by officials.", []⟩

/-- C6 counterexample: a reasoning output whose CONFIDENCE line carries 2.5
produces a VerificationResult with confidence 2.5, outside the unit
interval, so the claimed bound fails. -/
theorem c6_confidence_counterexample :
    (verifier_verify_claim c6_env "Delhi schools closed tomorrow").1.confidence = (5 : ℚ)/2 ∧
    ¬ ((verifier_verify_claim c6_env "Delhi schools closed tomorrow").1.confidence ≤ 1) := by
  decide

/-- C6 amended: the confidence always equals the parsed (or defaulted) value
rounded to three decimals and is never negative, but no upper clamp is
applied, so it lies in the unit interval only when the parsed value does. -/
theorem c6_confidence_amended (env : VerifierEnv) (claim : String) :
    0 ≤ (verifier_verify_claim env claim).1.confidence ∧
    (∀ out : String, env.groqPresent = true →
      env.groqRespond (buildGroqPrompt claim env.evidence) = Except.ok out →
      (verifier_verify_claim env claim).1.confidence =
        roundQ3 (match searchConfidenceNum (pyStrip out.data) with
                 | some c => c
                 | none => (1 : ℚ)/2)) := by
  constructor
  · cases hb : env.groqPresent with
    | false =>
      rw [verify_step_absent env claim hb]
      show (0 : ℚ) ≤ roundQ3 ((3 : ℚ)/10)
      decide
    | true =>
      cases hresp : env.groqRespond (buildGroqPrompt claim env.evidence) with
      | error e =>
        rw [verify_step_error env claim e hb hresp]
        show (0 : ℚ) ≤ roundQ3 ((3 : ℚ)/10)
        decide
      | ok out =>
        rw [verify_step_ok env claim out hb hresp]
        show 0 ≤ roundQ3 (match searchConfidenceNum (pyStrip out.data) with
          | some c => c
          | none => (1 : ℚ)/2)
        apply roundQ3_nonneg
        cases hc : searchConfidenceNum (pyStrip out.data) with
        | some c =>
          exact searchConfidenceNum_nonneg _ c hc
        | none =>
          show (0 : ℚ) ≤ 1/2
          norm_num
  · intro out hp hr
    rw [verify_step_ok env claim out hp hr]

def c6_amended_env : VerifierEnv := ⟨true, fun _ => Except.ok "CONFIDENCE: 0.85", []⟩

/-- Witness for the amended C6 at a concrete environment. -/
theorem c6_confidence_amended_witness :
    0 ≤ (verifier_verify_claim c6_amended_env "Metro closed in Delhi today").1.confidence ∧
    (verifier_verify_claim c6_amended_env "Metro closed in Delhi today").1.confidence =
      roundQ3 (match searchConfidenceNum (pyStrip ("CONFIDENCE: 0.85").data) with
               | some c => c
               | none => (1 : ℚ)/2) :=
  ⟨(c6_confidence_amended c6_amended_env "Metro closed in Delhi today").1,
   (c6_confidence_amended c6_amended_env "Metro closed in Delhi today").2
     "CONFIDENCE: 0.85" rfl rfl⟩

/-! ### C9: the complexity assessment -/

lemma simple_cond_iff (s : List Char) :
    ((wordCount s ≤ 15 && (extract_entities s).length ≤ 2 && !hasMultipleClauses s
        && !(!(extract_quantitative s).isEmpty)) = true) ↔
      (wordCount s ≤ 15 ∧ (extract_entities s).length ≤ 2 ∧
       hasMultipleClauses s = false ∧ extract_quantitative s = []) := by
  simp [Bool.and_eq_true, Bool.not_eq_true', List.isEmpty_iff, and_assoc]

lemma moderate_cond_iff (s : List Char) :
    ((wordCount s ≤ 40 && (extract_entities s).length ≤ 4
        && !hasConjunction (lowerL s)) = true) ↔
      (wordCount s ≤ 40 ∧ (extract_entities s).length ≤ 4 ∧
       hasConjunction (lowerL s) = false) := by
  simp [Bool.and_eq_true, Bool.not_eq_true', and_assoc]

/-- What the source complexity function actually decides: the simple branch
tests word count, entity count, multiple clauses and quantitative elements
but not conjunctions; the moderate branch additionally excludes
conjunctions. -/
lemma complexity_characterization (s : List Char) :
    (assess_claim_complexity s = "simple" ↔
      (wordCount s ≤ 15 ∧ (extract_entities s).length ≤ 2 ∧
       hasMultipleClauses s = false ∧ extract_quantitative s = [])) ∧
    (assess_claim_complexity s = "moderate" ↔
      (¬ (wordCount s ≤ 15 ∧ (extract_entities s).length ≤ 2 ∧
          hasMultipleClauses s = false ∧ extract_quantitative s = []) ∧
       wordCount s ≤ 40 ∧ (extract_entities s).length ≤ 4 ∧
       hasConjunction (lowerL s) = false)) ∧
    (assess_claim_complexity s = "complex" ↔
      (¬ (wordCount s ≤ 15 ∧ (extract_entities s).length ≤ 2 ∧
          hasMultipleClauses s = false ∧ extract_quantitative s = []) ∧
       ¬ (wordCount s ≤ 40 ∧ (extract_entities s).length ≤ 4 ∧
          hasConjunction (lowerL s) = false))) := by
  simp only [assess_claim_complexity]
  split_ifs with hA hB
  · have pA := (simple_cond_iff s).mp hA
    exact ⟨⟨fun _ => pA, fun _ => rfl⟩,
           ⟨fun h => absurd h (by decide), fun h => absurd pA h.1⟩,
           ⟨fun h => absurd h (by decide), fun h => absurd pA h.1⟩⟩
  · have pA : ¬ (wordCount s ≤ 15 ∧ (extract_entities s).length ≤ 2 ∧
        hasMultipleClauses s = false ∧ extract_quantitative s = []) :=
      fun hp => hA ((simple_cond_iff s).mpr hp)
    have pB := (moderate_cond_iff s).mp hB
    exact ⟨⟨fun h => absurd h (by decide), fun h => absurd h pA⟩,
           ⟨fun _ => ⟨pA, pB⟩, fun _ => rfl⟩,
           ⟨fun h => absurd h (by decide), fun h => absurd pB h.2⟩⟩
  · have pA : ¬ (wordCount s ≤ 15 ∧ (extract_entities s).length ≤ 2 ∧
        hasMultipleClauses s = false ∧ extract_quantitative s = []) :=
      fun hp => hA ((simple_cond_iff s).mpr hp)
    have pB : ¬ (wordCount s ≤ 40 ∧ (extract_entities s).length ≤ 4 ∧
        hasConjunction (lowerL s) = false) :=
      fun hp => hB ((moderate_cond_iff s).mpr hp)
    exact ⟨⟨fun h => absurd h (by decide), fun h => absurd h pA⟩,
           ⟨fun h => absurd h (by decide), fun h => absurd h.2 pB⟩,
           ⟨fun _ => ⟨pA, pB⟩, fun _ => rfl⟩⟩

/-- C9 counterexample: the accepted claim Cats and dogs play contains the
conjunction and, yet its claim_complexity is simple, because the simple
branch of the source never tests conjunctions; the claimed characterization
of simple therefore fails. -/
theorem c9_complexity_counterexample :
    (detect "Cats and dogs play").toOption.map (fun r => r.claim_complexity) =
      some "simple" ∧
    hasConjunction (lowerL (pyStrip ("Cats and dogs play").data)) = true := by
  decide

/-- C9 amended: for every accepted claim, claim_complexity is simple exactly
when word count is at most 15, entity count at most 2, and there is no
multi-clause signal and no quantitative element (conjunctions are NOT
considered); moderate exactly when it is not simple, word count is at most
40, entity count at most 4 and there is no conjunction; complex otherwise. -/
theorem c9_complexity_amended (claim : String) (r : DetectionResult)
    (h : detect claim = Except.ok r) :
    (r.claim_complexity = "simple" ↔
      (wordCount (pyStrip claim.data) ≤ 15 ∧
       (extract_entities (pyStrip claim.data)).length ≤ 2 ∧
       hasMultipleClauses (pyStrip claim.data) = false ∧
       extract_quantitative (pyStrip claim.data) = [])) ∧
    (r.claim_complexity = "moderate" ↔
      (¬ (wordCount (pyStrip claim.data) ≤ 15 ∧
          (extract_entities (pyStrip claim.data)).length ≤ 2 ∧
          hasMultipleClauses (pyStrip claim.data) = false ∧
          extract_quantitative (pyStrip claim.data) = []) ∧
       wordCount (pyStrip claim.data) ≤ 40 ∧
       (extract_entities (pyStrip claim.data)).length ≤ 4 ∧
       hasConjunction (lowerL (pyStrip claim.data)) = false)) ∧
    (r.claim_complexity = "complex" ↔
      (¬ (wordCount (pyStrip claim.data) ≤ 15 ∧
          (extract_entities (pyStrip claim.data)).length ≤ 2 ∧
          hasMultipleClauses (pyStrip claim.data) = false ∧
          extract_quantitative (pyStrip claim.data) = []) ∧
       ¬ (wordCount (pyStrip claim.data) ≤ 40 ∧
          (extract_entities (pyStrip claim.data)).length ≤ 4 ∧
          hasConjunction (lowerL (pyStrip claim.data)) = false))) := by
  obtain ⟨hr, -⟩ := detect_ok_iff claim r h
  subst hr
  exact complexity_characterization (pyStrip claim.data)

/-- Witness for the amended C9 at a concrete accepted claim. -/
theorem c9_complexity_amended_witness :
    (detectBody (pyStrip ("Cats and dogs play").data)).claim_complexity = "simple" ↔
      (wordCount (pyStrip ("Cats and dogs play").data) ≤ 15 ∧
       (extract_entities (pyStrip ("Cats and dogs play").data)).length ≤ 2 ∧
       hasMultipleClauses (pyStrip ("Cats and dogs play").data) = false ∧
       extract_quantitative (pyStrip ("Cats and dogs play").data) = []) :=
  (c9_complexity_amended "Cats and dogs play"
    (detectBody (pyStrip ("Cats and dogs play").data)) (by rfl)).1

/-! ### C10: the airport example -/

/-- C10 counterexample: on the example claim the extracted action is the
single word closed, not the phrase airport closed (the phrase is not a
contiguous substring of the claim, so the fixed-phrase table misses and the
single-word regex fires), while claim_type and domain are as claimed. -/
theorem c10_airport_counterexample :
    (detect "Is the airport in Delhi really closed?").toOption.map
      (fun r => r.structured_claim.action) = some (some "closed") ∧
    ("closed" : String) ≠ "airport closed" := by
  decide

/-- C10 amended: the example claim is classified as a question in the travel
domain with extracted action closed. -/
theorem c10_airport_example_amended :
    (detect "Is the airport in Delhi really closed?").toOption.map
      (fun r => r.claim_type) = some "question" ∧
    (detect "Is the airport in Delhi really closed?").toOption.map
      (fun r => r.domain) = some "travel" ∧
    (detect "Is the airport in Delhi really closed?").toOption.map
      (fun r => r.structured_claim.action) = some (some "closed") := by
  decide
